import Mathlib

/-!
Verification development for the invoice extraction pipeline in
`app/langgraph_workflow.py`.

The pipeline's data values are JSON values produced by `json.loads`; we model
them with the inductive type `Json` below.  Python dictionaries are modelled as
insertion-ordered association lists (`List (String × Json)`): assignment to an
existing key replaces the value in place, assignment to a fresh key appends.
Numeric amounts are modelled as exact rationals (`ℚ`); Python `float`
arithmetic on the decimal literals involved here is treated as exact, and the
non-finite values `inf`/`nan` accepted by Python's `float()` are outside the
model (invoice amounts are finite decimals).
-/

/-- A JSON value as produced by `json.loads`: `null`, booleans, numbers
(Python `int`/`float`, modelled as `ℚ`), strings, arrays and objects. -/
inductive Json where
  | null : Json
  | bool (b : Bool) : Json
  | num (q : ℚ) : Json
  | str (s : String) : Json
  | arr (elts : List Json) : Json
  | obj (entries : List (String × Json)) : Json

mutual

/-- Decidable structural equality of JSON values. -/
def Json.decEq : (a b : Json) → Decidable (a = b)
  | .null, .null => isTrue rfl
  | .null, .bool _ => isFalse (fun h => Json.noConfusion h)
  | .null, .num _ => isFalse (fun h => Json.noConfusion h)
  | .null, .str _ => isFalse (fun h => Json.noConfusion h)
  | .null, .arr _ => isFalse (fun h => Json.noConfusion h)
  | .null, .obj _ => isFalse (fun h => Json.noConfusion h)
  | .bool _, .null => isFalse (fun h => Json.noConfusion h)
  | .bool a, .bool b =>
      if h : a = b then isTrue (congrArg Json.bool h)
      else isFalse (fun hh => h (Json.bool.inj hh))
  | .bool _, .num _ => isFalse (fun h => Json.noConfusion h)
  | .bool _, .str _ => isFalse (fun h => Json.noConfusion h)
  | .bool _, .arr _ => isFalse (fun h => Json.noConfusion h)
  | .bool _, .obj _ => isFalse (fun h => Json.noConfusion h)
  | .num _, .null => isFalse (fun h => Json.noConfusion h)
  | .num _, .bool _ => isFalse (fun h => Json.noConfusion h)
  | .num a, .num b =>
      if h : a = b then isTrue (congrArg Json.num h)
      else isFalse (fun hh => h (Json.num.inj hh))
  | .num _, .str _ => isFalse (fun h => Json.noConfusion h)
  | .num _, .arr _ => isFalse (fun h => Json.noConfusion h)
  | .num _, .obj _ => isFalse (fun h => Json.noConfusion h)
  | .str _, .null => isFalse (fun h => Json.noConfusion h)
  | .str _, .bool _ => isFalse (fun h => Json.noConfusion h)
  | .str _, .num _ => isFalse (fun h => Json.noConfusion h)
  | .str a, .str b =>
      if h : a = b then isTrue (congrArg Json.str h)
      else isFalse (fun hh => h (Json.str.inj hh))
  | .str _, .arr _ => isFalse (fun h => Json.noConfusion h)
  | .str _, .obj _ => isFalse (fun h => Json.noConfusion h)
  | .arr _, .null => isFalse (fun h => Json.noConfusion h)
  | .arr _, .bool _ => isFalse (fun h => Json.noConfusion h)
  | .arr _, .num _ => isFalse (fun h => Json.noConfusion h)
  | .arr _, .str _ => isFalse (fun h => Json.noConfusion h)
  | .arr xs, .arr ys =>
      match Json.decEqList xs ys with
      | isTrue h => isTrue (congrArg Json.arr h)
      | isFalse h => isFalse (fun hh => h (Json.arr.inj hh))
  | .arr _, .obj _ => isFalse (fun h => Json.noConfusion h)
  | .obj _, .null => isFalse (fun h => Json.noConfusion h)
  | .obj _, .bool _ => isFalse (fun h => Json.noConfusion h)
  | .obj _, .num _ => isFalse (fun h => Json.noConfusion h)
  | .obj _, .str _ => isFalse (fun h => Json.noConfusion h)
  | .obj _, .arr _ => isFalse (fun h => Json.noConfusion h)
  | .obj xs, .obj ys =>
      match Json.decEqEntries xs ys with
      | isTrue h => isTrue (congrArg Json.obj h)
      | isFalse h => isFalse (fun hh => h (Json.obj.inj hh))

/-- Decidable equality of JSON array element lists. -/
def Json.decEqList : (a b : List Json) → Decidable (a = b)
  | [], [] => isTrue rfl
  | [], _ :: _ => isFalse (fun h => List.noConfusion h)
  | _ :: _, [] => isFalse (fun h => List.noConfusion h)
  | x :: xs, y :: ys =>
      match Json.decEq x y with
      | isTrue h1 =>
          match Json.decEqList xs ys with
          | isTrue h2 => isTrue (by rw [h1, h2])
          | isFalse h2 => isFalse (fun hh => h2 (by injection hh))
      | isFalse h1 => isFalse (fun hh => h1 (by injection hh))

/-- Decidable equality of JSON object entry lists. -/
def Json.decEqEntries : (a b : List (String × Json)) → Decidable (a = b)
  | [], [] => isTrue rfl
  | [], _ :: _ => isFalse (fun h => List.noConfusion h)
  | _ :: _, [] => isFalse (fun h => List.noConfusion h)
  | (k, v) :: xs, (k', v') :: ys =>
      if hk : k = k' then
        match Json.decEq v v' with
        | isTrue hv =>
            match Json.decEqEntries xs ys with
            | isTrue ht => isTrue (by rw [hk, hv, ht])
            | isFalse ht => isFalse (fun hh => ht (by injection hh))
        | isFalse hv =>
            isFalse (fun hh => hv (by
              have h1 : (k, v) = (k', v') := by injection hh
              exact congrArg Prod.snd h1))
      else
        isFalse (fun hh => hk (by
          have h1 : (k, v) = (k', v') := by injection hh
          exact congrArg Prod.fst h1))

end

instance : DecidableEq Json := Json.decEq

instance : BEq Json := instBEqOfDecidableEq

/-- Python `dict` lookup `d.get(k)` on an insertion-ordered association list. -/
def dictGet (d : List (String × Json)) (k : String) : Option Json :=
  match d with
  | [] => none
  | (k', v) :: rest => if k' == k then some v else dictGet rest k

/-- Python `dict` assignment `d[k] = v`: replace in place if the key exists,
append at the end otherwise. -/
def dictSet (d : List (String × Json)) (k : String) (v : Json) :
    List (String × Json) :=
  match d with
  | [] => [(k, v)]
  | (k', v') :: rest => if k' == k then (k, v) :: rest else (k', v') :: dictSet rest k v

/-- Python `d.update(other)`: assign every binding of `other` into `d`,
in `other`'s insertion order. -/
def dictUpdate (d other : List (String × Json)) : List (String × Json) :=
  other.foldl (fun acc p => dictSet acc p.1 p.2) d

/-- Python truthiness of a JSON value: `None`, `False`, `0`, `0.0`, `""`,
`[]` and `{}` are falsy, everything else truthy. -/
def truthy : Json → Bool
  | .null => false
  | .bool b => b
  | .num q => q != 0
  | .str s => s != ""
  | .arr xs => !xs.isEmpty
  | .obj kvs => !kvs.isEmpty

/-- Python `v == 0.0` for a JSON value: numeric values (including `bool`,
a subclass of `int`) compare by value; all other types compare unequal. -/
def pyEqZero : Json → Bool
  | .num q => q == 0
  | .bool b => !b
  | _ => false

/-- Whitespace characters for Python's `str.strip()` / regex `\s`
(ASCII subset: space, tab, newline, carriage return, vertical tab, form feed). -/
def isSpaceChar (c : Char) : Bool :=
  c = ' ' || c = '\t' || c = '\n' || c = '\r' || c = '\x0b' || c = '\x0c'

/-- Value of a list of decimal digit characters. -/
def digitsToNat (ds : List Char) : Nat :=
  ds.foldl (fun n c => n * 10 + (c.toNat - 48)) 0

/-- Positive power of ten, as a rational. -/
def pow10 (n : Nat) : ℚ := (10 : ℚ) ^ n

/-- Scale a rational by `10 ^ e` for a signed exponent `e`. -/
def scaleByExp (q : ℚ) (e : Int) : ℚ :=
  if 0 ≤ e then q * pow10 e.toNat else q / pow10 (-e).toNat

/-- Parse an unsigned decimal mantissa `digits [. digits]` (Python `float()`
also accepts `.digits` and `digits.`); returns the value and the rest. -/
def parseMantissa (cs : List Char) : Option (ℚ × List Char) :=
  let (ip, rest) := cs.span (fun c => c.isDigit)
  match rest with
  | '.' :: rest2 =>
      let (fp, rest3) := rest2.span (fun c => c.isDigit)
      if ip.isEmpty && fp.isEmpty then none
      else some ((digitsToNat ip : ℚ) + (digitsToNat fp : ℚ) / pow10 fp.length, rest3)
  | _ => if ip.isEmpty then none else some ((digitsToNat ip : ℚ), rest)

/-- Parse a mandatory exponent part `(e|E)[+|-]digits`; returns the signed
exponent and the rest, or `none` if malformed. -/
def parseExpPart (cs : List Char) : Option (Int × List Char) :=
  match cs with
  | c :: rest =>
      if c == 'e' || c == 'E' then
        let (sg, rest2) : Int × List Char :=
          match rest with
          | '+' :: r => (1, r)
          | '-' :: r => (-1, r)
          | r => (1, r)
        let (ds, rest3) := rest2.span (fun c => c.isDigit)
        if ds.isEmpty then none else some (sg * (digitsToNat ds : Int), rest3)
      else none
  | [] => none

/-- Model of Python `float(s)` on a string: strip surrounding whitespace,
optional sign, decimal mantissa, optional exponent; the whole (stripped)
string must be consumed.  `none` models a raised `ValueError`.
(`inf`/`nan` and digit-group underscores are not modelled.) -/
def pyFloat (s : String) : Option ℚ :=
  let cs := ((s.toList.dropWhile isSpaceChar).reverse.dropWhile isSpaceChar).reverse
  let (sgn, cs1) : ℚ × List Char :=
    match cs with
    | '+' :: r => (1, r)
    | '-' :: r => (-1, r)
    | r => (1, r)
  match parseMantissa cs1 with
  | none => none
  | some (m, rest) =>
      match rest with
      | [] => some (sgn * m)
      | c :: _ =>
          if c == 'e' || c == 'E' then
            match parseExpPart rest with
            | some (e, []) => some (sgn * scaleByExp m e)
            | _ => none
          else none

/-- Remove every occurrence of the given characters from a string
(chained Python `str.replace(c, "")` calls). -/
def removeChars (bad : List Char) (s : String) : String :=
  String.mk (s.toList.filter (fun c => !(bad.contains c)))

/-- Characters stripped by the financial-extraction stage before `float()`:
`value.replace('$', '').replace(',', '')` — only the dollar sign and comma. -/
def finStripChars : List Char := ['$', ',']

/-- Characters stripped by the validation stage before `float()`:
`.replace('$', '').replace(',', '').replace('£', '').replace('€', '')`. -/
def valStripChars : List Char := ['$', ',', '£', '€']

/-- Coercion of a line-item total price or of the declared total in the
validation stage (`validate_and_enhance_data`, lines 275–298): a string is
stripped of `$ , £ €` and passed to `float()` with `0.0` on failure; an
`int`/`float` is kept (Python `bool` is an `int` subclass, `True = 1`);
anything else becomes `0.0`. -/
def coerceMoney : Json → ℚ
  | .str s =>
      match pyFloat (removeChars valStripChars s) with
      | some q => q
      | none => 0
  | .num q => q
  | .bool b => if b then 1 else 0
  | _ => 0

/-- Coercion applied by the financial-extraction stage (lines 186–193) to a
truthy `subtotal`/`tax_amount`/`total_amount` value:
`float(str(v).replace('$', '').replace(',', ''))` with `0.0` on failure.
`str()` of a number round-trips through `float()` unchanged; `str()` of a
boolean, array or object does not parse as a float, giving `0.0`. -/
def coerceFinancialValue : Json → Json
  | .str s =>
      match pyFloat (removeChars finStripChars s) with
      | some q => .num q
      | none => .num 0
  | .num q => .num q
  | _ => .num 0

/-- Keys subject to numeric coercion in the financial-extraction stage. -/
def financialKeys : List String := ["subtotal", "tax_amount", "total_amount"]

/-- One iteration of the financial coercion loop: coerce the value at `k`
when the key is present and truthy (`if key in financial_data and
financial_data[key]`), otherwise leave the mapping unchanged. -/
def coerceKeyStep (d : List (String × Json)) (k : String) : List (String × Json) :=
  match dictGet d k with
  | some v => if truthy v then dictSet d k (coerceFinancialValue v) else d
  | none => d

/-- The financial coercion loop over `subtotal`, `tax_amount`, `total_amount`. -/
def coerceFinancial (d : List (String × Json)) : List (String × Json) :=
  financialKeys.foldl coerceKeyStep d

/-- Whitespace accepted by `json.loads` between tokens. -/
def isJsonWs (c : Char) : Bool :=
  c = ' ' || c = '\t' || c = '\n' || c = '\r'

/-- Value of a hexadecimal digit character, if it is one. -/
def hexVal (c : Char) : Option Nat :=
  if c.isDigit then some (c.toNat - 48)
  else if 'a' ≤ c && c ≤ 'f' then some (c.toNat - 87)
  else if 'A' ≤ c && c ≤ 'F' then some (c.toNat - 55)
  else none

/-- Parse the body of a JSON string literal (after the opening quote),
handling the standard escapes; `acc` holds the reversed parsed prefix.
Unescaped control characters (rejected by strict `json.loads`) and surrogate
pairs are not modelled. -/
def parseStringBody (acc : List Char) : List Char → Option (String × List Char)
  | [] => none
  | '"' :: rest => some (String.mk acc.reverse, rest)
  | '\\' :: rest =>
      match rest with
      | '"' :: r => parseStringBody ('"' :: acc) r
      | '\\' :: r => parseStringBody ('\\' :: acc) r
      | '/' :: r => parseStringBody ('/' :: acc) r
      | 'b' :: r => parseStringBody ('\x08' :: acc) r
      | 'f' :: r => parseStringBody ('\x0c' :: acc) r
      | 'n' :: r => parseStringBody ('\n' :: acc) r
      | 'r' :: r => parseStringBody ('\r' :: acc) r
      | 't' :: r => parseStringBody ('\t' :: acc) r
      | 'u' :: h1 :: h2 :: h3 :: h4 :: r =>
          match hexVal h1, hexVal h2, hexVal h3, hexVal h4 with
          | some a, some b, some c, some d =>
              parseStringBody (Char.ofNat (4096 * a + 256 * b + 16 * c + d) :: acc) r
          | _, _, _, _ => none
      | _ => none
  | c :: rest => parseStringBody (c :: acc) rest


/-- Parse an optional JSON fraction part `.digits`; a bare `.` without digits
is not part of the number token and is left unconsumed. -/
def parseJsonFrac (cs : List Char) : ℚ × List Char :=
  match cs with
  | '.' :: r =>
      let (fd, r2) := r.span (fun c => c.isDigit)
      if fd.isEmpty then (0, cs)
      else ((digitsToNat fd : ℚ) / pow10 fd.length, r2)
  | _ => (0, cs)

/-- Parse an optional JSON exponent part `(e|E)[+|-]digits`; a malformed
exponent is left unconsumed (it is not part of the number token). -/
def parseJsonExp (cs : List Char) : Int × List Char :=
  match cs with
  | c :: r =>
      if c == 'e' || c == 'E' then
        let (sg, r2) : Int × List Char :=
          match r with
          | '+' :: rr => (1, rr)
          | '-' :: rr => (-1, rr)
          | rr => (1, rr)
        let (ds, r3) := r2.span (fun c => c.isDigit)
        if ds.isEmpty then (0, cs) else (sg * (digitsToNat ds : Int), r3)
      else (0, cs)
  | [] => (0, cs)

/-- Parse a JSON number token `-?(0|[1-9]digits*)(.digits+)?((e|E)sign?digits+)?`
by maximal munch, as Python's `json` number regex does. -/
def parseJsonNumber (cs : List Char) : Option (ℚ × List Char) :=
  let (sgn, cs1) : ℚ × List Char :=
    match cs with
    | '-' :: r => (-1, r)
    | r => (1, r)
  match cs1 with
  | '0' :: rest =>
      let (fr, rest2) := parseJsonFrac rest
      let (e, rest3) := parseJsonExp rest2
      some (sgn * scaleByExp ((0 : ℚ) + fr) e, rest3)
  | c :: rest =>
      if c.isDigit then
        let (ds, rest2) := rest.span (fun c => c.isDigit)
        let (fr, rest3) := parseJsonFrac rest2
        let (e, rest4) := parseJsonExp rest3
        some (sgn * scaleByExp ((digitsToNat (c :: ds) : ℚ) + fr) e, rest4)
      else none
  | [] => none

/-- Does the list start with the given prefix of characters? -/
def startsWithChars (p cs : List Char) : Bool :=
  match p, cs with
  | [], _ => true
  | _, [] => false
  | a :: p', c :: cs' => a == c && startsWithChars p' cs'

mutual

/-- Fueled recursive-descent parser for one JSON value, modelling Python's
`json.loads` grammar (`NaN`/`Infinity` constants are not modelled); returns
the value and the unconsumed remainder. -/
def parseValue : Nat → List Char → Option (Json × List Char)
  | 0, _ => none
  | Nat.succ fuel, cs =>
      match cs.dropWhile isJsonWs with
      | [] => none
      | '"' :: rest =>
          match parseStringBody [] rest with
          | some (s, r) => some (.str s, r)
          | none => none
      | '\x7b' :: rest => parseMembers fuel rest
      | '[' :: rest => parseElems fuel rest
      | 't' :: rest =>
          if startsWithChars ['r', 'u', 'e'] rest then some (.bool true, rest.drop 3) else none
      | 'f' :: rest =>
          if startsWithChars ['a', 'l', 's', 'e'] rest then some (.bool false, rest.drop 4) else none
      | 'n' :: rest =>
          if startsWithChars ['u', 'l', 'l'] rest then some (.null, rest.drop 3) else none
      | cs' =>
          match parseJsonNumber cs' with
          | some (q, r) => some (.num q, r)
          | none => none

/-- Parse the members of a JSON object after the opening brace; duplicate
keys collapse with the last occurrence winning, as in Python dicts. -/
def parseMembers : Nat → List Char → Option (Json × List Char)
  | 0, _ => none
  | Nat.succ fuel, cs =>
      match cs.dropWhile isJsonWs with
      | '\x7d' :: r => some (.obj [], r)
      | cs' => parseMembersRest fuel [] cs'

/-- Parse `"key": value (, "key": value)* \x7d` entries; `acc` holds the
object assembled so far (assignments through `dictSet`). -/
def parseMembersRest : Nat → List (String × Json) → List Char → Option (Json × List Char)
  | 0, _, _ => none
  | Nat.succ fuel, acc, cs =>
      match cs.dropWhile isJsonWs with
      | '"' :: rest =>
          match parseStringBody [] rest with
          | some (k, r1) =>
              match (r1.dropWhile isJsonWs) with
              | ':' :: r2 =>
                  match parseValue fuel r2 with
                  | some (v, r3) =>
                      let acc' := dictSet acc k v
                      match r3.dropWhile isJsonWs with
                      | ',' :: r4 => parseMembersRest fuel acc' r4
                      | '\x7d' :: r4 => some (.obj acc', r4)
                      | _ => none
                  | none => none
              | _ => none
          | none => none
      | _ => none

/-- Parse the elements of a JSON array after the opening bracket. -/
def parseElems : Nat → List Char → Option (Json × List Char)
  | 0, _ => none
  | Nat.succ fuel, cs =>
      match cs.dropWhile isJsonWs with
      | ']' :: r => some (.arr [], r)
      | cs' => parseElemsRest fuel [] cs'

/-- Parse `value (, value)* ]` elements; `acc` holds the reversed elements
parsed so far. -/
def parseElemsRest : Nat → List Json → List Char → Option (Json × List Char)
  | 0, _, _ => none
  | Nat.succ fuel, acc, cs =>
      match parseValue fuel cs with
      | some (v, r1) =>
          match r1.dropWhile isJsonWs with
          | ',' :: r2 => parseElemsRest fuel (v :: acc) r2
          | ']' :: r2 => some (.arr (v :: acc).reverse, r2)
          | _ => none
      | none => none

end

/-- Model of `json.loads`: parse one JSON value and require that only
whitespace remains; `none` models a raised `JSONDecodeError`. -/
def parseJson (s : String) : Option Json :=
  match parseValue (2 * s.length + 2) s.toList with
  | some (j, rest) => if (rest.dropWhile isJsonWs).isEmpty then some j else none
  | none => none


/-- The fixed key alias table of `normalize_json_keys`. -/
def key_mapping : List (String × String) :=
  [("Invoice Number", "invoice_number"),
   ("Invoice Date", "invoice_date"),
   ("Due Date", "due_date"),
   ("Vendor Name", "vendor_name"),
   ("Vendor Address", "vendor_address"),
   ("Customer Name", "customer_name"),
   ("Customer Address", "customer_address"),
   ("Subtotal", "subtotal"),
   ("Tax Amount", "tax_amount"),
   ("Total Amount", "total_amount"),
   ("Currency", "currency")]

/-- Python `key.lower().replace(" ", "_")`. -/
def pyLowerUnderscore (s : String) : String :=
  String.mk (s.toList.map (fun c => if c = ' ' then '_' else c.toLower))

/-- Normalization of one key: the alias table first, otherwise
lower-case with spaces replaced by underscores. -/
def normalizeKey (k : String) : String :=
  match key_mapping.find? (fun p => p.1 == k) with
  | some p => p.2
  | none => pyLowerUnderscore k

/-- Model of `normalize_json_keys`: build a fresh mapping assigning each
normalized key in input order (later duplicates overwrite). -/
def normalize_json_keys (d : List (String × Json)) : List (String × Json) :=
  d.foldl (fun acc p => dictSet acc (normalizeKey p.1) p.2) []

/-- Model of the regex search `\{.*\}` with `re.DOTALL`: the leftmost match
starts at the first `\x7b` and the greedy `.*` extends to the last `\x7d`;
there is a match exactly when some `\x7d` occurs after the first `\x7b`. -/
def find_brace_span (s : String) : Option String :=
  let cs := s.toList
  match cs.findIdx? (fun c => c = '\x7b'), (cs.reverse.findIdx? (fun c => c = '\x7d')) with
  | some i, some jr =>
      let j := cs.length - 1 - jr
      if i < j then some (String.mk ((cs.drop i).take (j - i + 1))) else none
  | _, _ => none

/-- Does a closing fence follow, after maximal `\s*`?  (`\s*` is greedy but a
backtick is not whitespace, so maximal munch is exact here.) -/
def fenceFollows (cs : List Char) : Bool :=
  startsWithChars ['\x60', '\x60', '\x60'] (cs.dropWhile isSpaceChar)

/-- Scan for the lazy body of `(\{.*?\})`: the first `\x7d` after which
`\s*` then a closing triple backtick matches ends the group; `acc` holds the
reversed group contents so far (starting with the opening brace). -/
def lazyBodyClose (acc : List Char) : List Char → Option String
  | [] => none
  | c :: rest =>
      if c = '\x7d' && fenceFollows rest then some (String.mk (acc.reverse ++ ['\x7d']))
      else lazyBodyClose (c :: acc) rest

/-- Try to match `(?:json)?\s*(\{.*?\})\s*` followed by a closing fence,
starting right after an opening triple backtick; returns the captured group.
The optional literal `json` is deterministic: if it is present but the
continuation fails, the empty alternative would need `\{` at a `j`. -/
def matchFenceFrom (cs : List Char) : Option String :=
  let cs1 :=
    match cs with
    | 'j' :: 's' :: 'o' :: 'n' :: r => r
    | r => r
  match cs1.dropWhile isSpaceChar with
  | '\x7b' :: rest => lazyBodyClose ['\x7b'] rest
  | _ => none

/-- Scan the text for the leftmost position where the full fenced-block
pattern matches, as `re.search` does. -/
def scanFence : List Char → Option String
  | [] => none
  | c :: rest =>
      match
        (if c = '\x60' && startsWithChars ['\x60', '\x60'] rest then
          matchFenceFrom (rest.drop 2)
        else none) with
      | some g => some g
      | none => scanFence rest

/-- Model of the regex search ```` ```(?:json)?\s*(\{.*?\})\s*``` ```` with
`re.DOTALL`, returning capture group 1. -/
def find_code_block_json (s : String) : Option String :=
  scanFence s.toList

/-- Model of `extract_json_from_response`: direct `json.loads`, then the
fenced-code-block group, then the `\{.*\}` span; an empty object when
everything fails.  Total by construction — the Python function catches every
`JSONDecodeError` and never raises. -/
def extract_json_from_response (response_text : String) : Json :=
  match parseJson response_text with
  | some j => j
  | none =>
      match
        (match find_code_block_json response_text with
         | some sub => parseJson sub
         | none => none) with
      | some j => j
      | none =>
          match find_brace_span response_text with
          | some sub =>
              match parseJson sub with
              | some j => j
              | none => .obj []
          | none => .obj []


/-- The pipeline state (`InvoiceState` in the source).  Confidence scores are
stored as JSON values because the validation stage copies the model-supplied
`overall_confidence` into the mapping verbatim; the scores the stages
themselves record are always numeric. -/
structure InvoiceState where
  filename : String := ""
  raw_text : String := ""
  extracted_data : List (String × Json) := []
  confidence_scores : List (String × Json) := []
  processing_time : ℚ := 0
  status : String := "processing"
  error_message : String := ""
deriving DecidableEq

/-- The all-null fallback header fields written when header parsing fails. -/
def headerFallbackFields : List (String × Json) :=
  [("invoice_number", .null), ("invoice_date", .null), ("due_date", .null),
   ("vendor_name", .null), ("vendor_address", .null), ("customer_name", .null),
   ("customer_address", .null)]

/-- Model of `extract_header_info`.  The model invocation is abstracted as
`resp : Option String` — `none` when `groq_client.invoke` raises (hard
failure), `some content` otherwise.  `extract_json_from_response` itself
never raises; the inner `except` branch fires exactly when
`normalize_json_keys` is applied to a non-dict (Python `AttributeError` on
`.items()`), i.e. when the parsed value is not an object. -/
def extract_header_info (resp : Option String) (state : InvoiceState) : InvoiceState :=
  match resp with
  | none =>
      { state with error_message := "Header extraction failed", status := "failed" }
  | some content =>
      match extract_json_from_response content with
      | .obj raw =>
          { state with
            extracted_data := dictUpdate state.extracted_data (normalize_json_keys raw),
            confidence_scores :=
              dictSet state.confidence_scores "header_extraction" (.num (85/100)) }
      | _ =>
          { state with
            extracted_data := dictUpdate state.extracted_data headerFallbackFields,
            confidence_scores :=
              dictSet state.confidence_scores "header_extraction" (.num (1/2)) }

/-- The fallback financial fields written when financial parsing fails. -/
def financialFallbackFields : List (String × Json) :=
  [("subtotal", .num 0), ("tax_amount", .num 0), ("total_amount", .num 0),
   ("currency", .str "USD")]

/-- Model of `extract_financial_info` (same abstraction of the model call as
`extract_header_info`): parse, normalize keys, coerce the truthy amounts of
`subtotal`/`tax_amount`/`total_amount` to floats, merge; non-object parse
results take the fallback branch. -/
def extract_financial_info (resp : Option String) (state : InvoiceState) : InvoiceState :=
  match resp with
  | none =>
      { state with error_message := "Financial extraction failed", status := "failed" }
  | some content =>
      match extract_json_from_response content with
      | .obj raw =>
          { state with
            extracted_data :=
              dictUpdate state.extracted_data (coerceFinancial (normalize_json_keys raw)),
            confidence_scores :=
              dictSet state.confidence_scores "financial_extraction" (.num (9/10)) }
      | _ =>
          { state with
            extracted_data := dictUpdate state.extracted_data financialFallbackFields,
            confidence_scores :=
              dictSet state.confidence_scores "financial_extraction" (.num (1/2)) }

/-- Python `len()` is defined on strings, lists and dicts among JSON values;
`len()` of a number, boolean or `None` raises `TypeError`. -/
def hasLen : Json → Bool
  | .str _ => true
  | .arr _ => true
  | .obj _ => true
  | _ => false

/-- Model of `extract_line_items`: a top-level array is taken as the items, a
dict contributes its `line_items` value, anything else an empty list.  The
success branch then evaluates `len(line_items)` in its log line; when the
`line_items` value has no `len()` this raises and the `except` branch
overwrites the entry with `[]` and records confidence 0.5. -/
def extract_line_items (resp : Option String) (state : InvoiceState) : InvoiceState :=
  match resp with
  | none =>
      { state with error_message := "Line items extraction failed", status := "failed" }
  | some content =>
      let raw := extract_json_from_response content
      let line_items : Json :=
        match raw with
        | .arr xs => .arr xs
        | .obj kvs =>
            match dictGet kvs "line_items" with
            | some v => v
            | none => .arr []
        | _ => .arr []
      if hasLen line_items then
        { state with
          extracted_data := dictSet state.extracted_data "line_items" line_items,
          confidence_scores :=
            dictSet state.confidence_scores "line_items_extraction" (.num (8/10)) }
      else
        { state with
          extracted_data := dictSet state.extracted_data "line_items" (.arr []),
          confidence_scores :=
            dictSet state.confidence_scores "line_items_extraction" (.num (1/2)) }

/-- Python `x or y`: the first operand when truthy, otherwise the second. -/
def pyOr (x y : Json) : Json := if truthy x then x else y

/-- Python `d.get(k)` as a value: `None` when the key is missing. -/
def getOrNone (d : List (String × Json)) (k : String) : Json :=
  (dictGet d k).getD .null

/-- Resolution of a line item's total price through the `or`-chain
`item.get("total_price") or item.get("Total Price") or item.get("amount")
or item.get("Amount") or 0.0`: Python `or` takes the first truthy operand,
so a present-but-falsy alias is skipped. -/
def resolveTotalPriceField (item : List (String × Json)) : Json :=
  pyOr (getOrNone item "total_price")
    (pyOr (getOrNone item "Total Price")
      (pyOr (getOrNone item "amount")
        (pyOr (getOrNone item "Amount") (.num 0))))

/-- Contribution of one line item to the calculated total: non-dict items are
skipped; a dict item's resolved total price is coerced as in §4.2 of the
validation stage. -/
def itemContribution : Json → ℚ
  | .obj kvs => coerceMoney (resolveTotalPriceField kvs)
  | _ => 0

/-- The line-item total computed by the validation stage:
`line_items = extracted_data.get("line_items", [])`; summed only when that
value is truthy **and** a list (an empty list is falsy). -/
def calculated_total (data : List (String × Json)) : ℚ :=
  match dictGet data "line_items" with
  | some (.arr items) =>
      if items.isEmpty then 0 else (items.map itemContribution).sum
  | _ => 0

/-- The declared total as coerced by the validation stage:
`extracted_data.get("total_amount", 0.0)`, strings stripped of `$ , £ €`
and parsed (`0.0` on failure), non-numeric non-string values treated as
`0.0`. -/
def extracted_total (data : List (String × Json)) : ℚ :=
  match dictGet data "total_amount" with
  | some v => coerceMoney v
  | none => 0

/-- The tolerance comparison `abs(calculated_total - extracted_total) <= 0.01`. -/
def totalsMatch (calcT ext : ℚ) : Bool := |calcT - ext| ≤ 1/100

/-- The Python condition
`not extracted_data.get("subtotal") or extracted_data.get("subtotal") == 0.0`
deciding whether the subtotal is also overwritten. -/
def subtotalNeedsFix (d : List (String × Json)) : Bool :=
  match dictGet d "subtotal" with
  | none => true
  | some v => !truthy v || pyEqZero v

/-- The auto-correction block of the validation stage (lines 304–317): when
the totals do not match and `calculated_total > 0`, overwrite `total_amount`
with the calculated total and, when the subtotal is missing or falsy/zero,
overwrite `subtotal` as well; otherwise leave the data untouched. -/
def applyAutoCorrect (data : List (String × Json)) (calcT : ℚ) (tm : Bool) :
    List (String × Json) :=
  if !tm && calcT > 0 then
    let d1 := dictSet data "total_amount" (.num calcT)
    if subtotalNeedsFix d1 then dictSet d1 "subtotal" (.num calcT) else d1
  else data

/-- Is `needle` a contiguous subsequence of the haystack? -/
def containsSubChars (needle : List Char) : List Char → Bool
  | [] => needle.isEmpty
  | c :: rest => startsWithChars needle (c :: rest) || containsSubChars needle rest

/-- Python `sub in s` substring containment on strings. -/
def strContainsSub (s sub : String) : Bool :=
  containsSubChars sub.toList s.toList

/-- The average-confidence fallback `sum(values)/len(values)` with `0.5` for
an empty mapping.  Values recorded by the stages are numeric; any
non-numeric JSON value contributes through `coerceMoney`'s numeric view. -/
def mean_confidence (scores : List (String × Json)) : ℚ :=
  if scores.isEmpty then 1/2
  else (scores.map (fun p => coerceMoney p.2)).sum / scores.length

/-- Effect of the holistic-review response on the data and the confidence
mapping (the inner `try` of lines 339–350).  A dict response merges a
normalized `enhanced_data` dict and adopts `overall_confidence` verbatim
when present; a non-dict `enhanced_data` value makes `normalize_json_keys`
raise; `"enhanced_data" in validation_result` on a list is membership, on a
string substring containment (each followed by a raising indexing when
true), and on a number/boolean/`None` raises `TypeError`.  Every raise lands
in the `except` branch, which sets `overall` to the average stage
confidence. -/
def applyValidationResult (vr : Json) (data scores : List (String × Json)) :
    List (String × Json) × List (String × Json) :=
  match vr with
  | .obj kvs =>
      match dictGet kvs "enhanced_data" with
      | some (.obj ed) =>
          let data1 := dictUpdate data (normalize_json_keys ed)
          match dictGet kvs "overall_confidence" with
          | some oc => (data1, dictSet scores "overall" oc)
          | none => (data1, scores)
      | some _ =>
          (data, dictSet scores "overall" (.num (mean_confidence scores)))
      | none =>
          match dictGet kvs "overall_confidence" with
          | some oc => (data, dictSet scores "overall" oc)
          | none => (data, scores)
  | .arr xs =>
      if xs.contains (.str "enhanced_data") || xs.contains (.str "overall_confidence") then
        (data, dictSet scores "overall" (.num (mean_confidence scores)))
      else (data, scores)
  | .str s =>
      if strContainsSub s "enhanced_data" || strContainsSub s "overall_confidence" then
        (data, dictSet scores "overall" (.num (mean_confidence scores)))
      else (data, scores)
  | _ =>
      (data, dictSet scores "overall" (.num (mean_confidence scores)))

/-- The validation report written into `fields["validation"]`, built from the
pre-correction local variables. -/
def validationReport (tm : Bool) (ext calcT : ℚ) : Json :=
  .obj [("totals_match", .bool tm),
        ("extracted_total", .num ext),
        ("calculated_total", .num calcT),
        ("difference", .num |calcT - ext|),
        ("auto_corrected", .bool (!tm && calcT > 0))]

/-- Model of `validate_and_enhance_data`.  The reconciliation and
auto-correction happen before the model call; a raising invocation
(`resp = none`) therefore leaves the corrections in the state but sets
`status = failed` without writing the report.  On a response, the holistic
result is applied, the report (built from pre-correction values) is stored,
and the status becomes `completed`. -/
def validate_and_enhance_data (resp : Option String) (state : InvoiceState) :
    InvoiceState :=
  let data := state.extracted_data
  let calcT := calculated_total data
  let ext := extracted_total data
  let tm := totalsMatch calcT ext
  let data1 := applyAutoCorrect data calcT tm
  match resp with
  | none =>
      { state with
        extracted_data := data1,
        error_message := "Validation failed", status := "failed" }
  | some content =>
      let vr := extract_json_from_response content
      let pr := applyValidationResult vr data1 state.confidence_scores
      { state with
        extracted_data := dictSet pr.1 "validation" (validationReport tm ext calcT),
        confidence_scores := pr.2,
        status := "completed" }

/-- Model of `InvoiceExtractionWorkflow.run`: apply the nodes in sequence,
stopping as soon as a node leaves `status = "failed"` and returning that
state unchanged.  The node list is a parameter because the concrete nodes
close over model responses; the source's list is the five stages in order. -/
def InvoiceExtractionWorkflow.run (nodes : List (InvoiceState → InvoiceState))
    (state : InvoiceState) : InvoiceState :=
  match nodes with
  | [] => state
  | f :: rest =>
      let s' := f state
      if s'.status == "failed" then s' else InvoiceExtractionWorkflow.run rest s'


section DictLemmas

/-- Looking up the key just assigned returns the assigned value. -/
theorem dictGet_dictSet_self (d : List (String × Json)) (k : String) (v : Json) :
    dictGet (dictSet d k v) k = some v := by
  induction d with
  | nil => simp [dictGet, dictSet]
  | cons p rest ih =>
      obtain ⟨k', v'⟩ := p
      by_cases h : k' = k
      · simp [dictSet, dictGet, h]
      · simp [dictSet, dictGet, h, ih]

/-- Assigning one key leaves every other key's binding unchanged. -/
theorem dictGet_dictSet_ne (d : List (String × Json)) (k k' : String) (v : Json)
    (h : k' ≠ k) : dictGet (dictSet d k v) k' = dictGet d k' := by
  induction d with
  | nil => simp [dictGet, dictSet, Ne.symm h]
  | cons p rest ih =>
      obtain ⟨ka, va⟩ := p
      by_cases hk : ka = k
      · subst hk
        simp [dictSet, dictGet, Ne.symm h]
      · by_cases hk' : ka = k'
        · subst hk'
          simp [dictSet, dictGet, hk, h]
        · simp [dictSet, dictGet, hk, hk', ih]

end DictLemmas


/-- Is a JSON value an object (a Python dict)? -/
def Json.isObj : Json → Bool
  | .obj _ => true
  | _ => false

section StageLemmas

/-- When the totals do not match and the calculated total is positive, the
auto-correction writes the calculated total into `total_amount`. -/
theorem autoCorrect_total (d : List (String × Json)) (c : ℚ) (hpos : 0 < c) :
    dictGet (applyAutoCorrect d c false) "total_amount" = some (.num c) := by
  have hc : (!false && decide (c > 0)) = true := by
    simp only [Bool.not_false, Bool.true_and, decide_eq_true_eq]
    exact hpos
  unfold applyAutoCorrect
  rw [if_pos hc]
  by_cases hfix : subtotalNeedsFix (dictSet d "total_amount" (.num c))
  · rw [if_pos hfix, dictGet_dictSet_ne _ _ _ _ (by decide), dictGet_dictSet_self]
  · rw [if_neg hfix, dictGet_dictSet_self]

/-- Under the same trigger, a missing or `0.0` subtotal is overwritten too. -/
theorem autoCorrect_subtotal (d : List (String × Json)) (c : ℚ) (hpos : 0 < c)
    (hsub : dictGet d "subtotal" = none ∨ dictGet d "subtotal" = some (.num 0)) :
    dictGet (applyAutoCorrect d c false) "subtotal" = some (.num c) := by
  have hget : dictGet (dictSet d "total_amount" (.num c)) "subtotal" = dictGet d "subtotal" :=
    dictGet_dictSet_ne _ _ _ _ (by decide)
  have hfix : subtotalNeedsFix (dictSet d "total_amount" (.num c)) = true := by
    rcases hsub with h | h <;> simp [subtotalNeedsFix, hget, h, truthy]
  have hc : (!false && decide (c > 0)) = true := by
    simp only [Bool.not_false, Bool.true_and, decide_eq_true_eq]
    exact hpos
  unfold applyAutoCorrect
  rw [if_pos hc, if_pos hfix]
  exact dictGet_dictSet_self _ _ _

/-- With a zero calculated total the auto-correction block is a no-op. -/
theorem autoCorrect_zero (d : List (String × Json)) (tm : Bool) :
    applyAutoCorrect d 0 tm = d := by
  simp [applyAutoCorrect]

/-- Unfolded form of the validation stage on a non-raising model call. -/
theorem validate_some_eq (content : String) (s : InvoiceState) :
    validate_and_enhance_data (some content) s =
      { s with
        extracted_data :=
          dictSet
            (applyValidationResult (extract_json_from_response content)
                (applyAutoCorrect s.extracted_data (calculated_total s.extracted_data)
                  (totalsMatch (calculated_total s.extracted_data)
                    (extracted_total s.extracted_data)))
                s.confidence_scores).1
            "validation"
            (validationReport
              (totalsMatch (calculated_total s.extracted_data)
                (extracted_total s.extracted_data))
              (extracted_total s.extracted_data) (calculated_total s.extracted_data)),
        confidence_scores :=
          (applyValidationResult (extract_json_from_response content)
              (applyAutoCorrect s.extracted_data (calculated_total s.extracted_data)
                (totalsMatch (calculated_total s.extracted_data)
                  (extracted_total s.extracted_data)))
              s.confidence_scores).2,
        status := "completed" } := rfl

/-- The financial coercion step leaves other keys' bindings unchanged. -/
theorem coerceKeyStep_ne (d : List (String × Json)) (k j : String) (h : j ≠ k) :
    dictGet (coerceKeyStep d k) j = dictGet d j := by
  unfold coerceKeyStep
  cases hv : dictGet d k with
  | none => rfl
  | some v =>
      by_cases ht : truthy v
      · simp [ht, dictGet_dictSet_ne _ _ _ _ h]
      · simp [ht]

/-- The financial coercion step coerces a present truthy value at its key. -/
theorem coerceKeyStep_self (d : List (String × Json)) (k : String) (v : Json)
    (hv : dictGet d k = some v) (ht : truthy v = true) :
    dictGet (coerceKeyStep d k) k = some (coerceFinancialValue v) := by
  unfold coerceKeyStep
  simp [hv, ht, dictGet_dictSet_self]

/-- The financial coercion always produces a number. -/
theorem coerceFinancialValue_isNum (v : Json) : ∃ q, coerceFinancialValue v = .num q := by
  cases v with
  | str s =>
      cases hf : pyFloat (removeChars finStripChars s) with
      | none => exact ⟨0, by simp [coerceFinancialValue, hf]⟩
      | some q => exact ⟨q, by simp [coerceFinancialValue, hf]⟩
  | num q => exact ⟨q, rfl⟩
  | null => exact ⟨0, rfl⟩
  | bool b => exact ⟨0, rfl⟩
  | arr xs => exact ⟨0, rfl⟩
  | obj kvs => exact ⟨0, rfl⟩

end StageLemmas


/-- C1: in the validation stage, whenever `totals_match` is false and
`calculated_total > 0`, `fields["total_amount"]` is overwritten with
`calculated_total`, and `fields["subtotal"]` is also set to it when missing
or `0.0`; when `calculated_total = 0` nothing is changed; and on line items
`[\x7btotal_price: "$100.00"\x7d, \x7btotal_price: "$50.00"\x7d]` with
declared total `140.0`, the stage computes `calculated_total = 150`, and
both `total_amount` and `subtotal` end up `150`. -/
theorem C1_validation_auto_correction :
    (∀ (data : List (String × Json)) (c : ℚ) (tm : Bool), tm = false → 0 < c →
        dictGet (applyAutoCorrect data c tm) "total_amount" = some (.num c)
          ∧ ((dictGet data "subtotal" = none ∨ dictGet data "subtotal" = some (.num 0)) →
            dictGet (applyAutoCorrect data c tm) "subtotal" = some (.num c)))
    ∧ (∀ (data : List (String × Json)) (tm : Bool), applyAutoCorrect data 0 tm = data)
    ∧ calculated_total
        [("total_amount", Json.num 140),
         ("line_items", Json.arr [Json.obj [("total_price", Json.str "$100.00")],
                                  Json.obj [("total_price", Json.str "$50.00")]])] = 150
    ∧ dictGet (validate_and_enhance_data (some "\x7b\x7d")
        { extracted_data :=
            [("total_amount", Json.num 140),
             ("line_items", Json.arr [Json.obj [("total_price", Json.str "$100.00")],
                                      Json.obj [("total_price", Json.str "$50.00")]])] }).extracted_data
        "total_amount" = some (Json.num 150)
    ∧ dictGet (validate_and_enhance_data (some "\x7b\x7d")
        { extracted_data :=
            [("total_amount", Json.num 140),
             ("line_items", Json.arr [Json.obj [("total_price", Json.str "$100.00")],
                                      Json.obj [("total_price", Json.str "$50.00")]])] }).extracted_data
        "subtotal" = some (Json.num 150) := by
  refine ⟨?_, ?_, ?_, ?_, ?_⟩
  · intro data c tm htm hpos
    subst htm
    exact ⟨autoCorrect_total data c hpos,
           fun hs => autoCorrect_subtotal data c hpos hs⟩
  · intro data tm
    exact autoCorrect_zero data tm
  · with_unfolding_all rfl
  · with_unfolding_all rfl
  · with_unfolding_all rfl

/-- C1 witness: the general auto-correction clause applied at a concrete
state with declared total `140`, calculated total `150` and no subtotal. -/
theorem C1_witness :
    dictGet (applyAutoCorrect [("total_amount", Json.num 140)] 150 false) "total_amount"
        = some (Json.num 150)
      ∧ dictGet (applyAutoCorrect [("total_amount", Json.num 140)] 150 false) "subtotal"
        = some (Json.num 150) :=
  let h := C1_validation_auto_correction.1 [("total_amount", Json.num 140)] 150 false rfl
    (by norm_num)
  ⟨h.1, h.2 (Or.inl (by with_unfolding_all rfl))⟩

/-- C2: the validation stage sets `totals_match` exactly when
`|calculated_total - extracted_total| ≤ 0.01`; a difference of exactly
`0.01` matches, a difference of `0.011` does not and (with positive
calculated total) triggers the auto-correction. -/
theorem C2_tolerance_boundary :
    (∀ c e : ℚ, totalsMatch c e = true ↔ |c - e| ≤ 1/100)
    ∧ totalsMatch (15001/100) 150 = true
    ∧ totalsMatch (150011/1000) 150 = false
    ∧ dictGet (applyAutoCorrect [("total_amount", Json.num 150)] (150011/1000)
        (totalsMatch (150011/1000) 150)) "total_amount"
        = some (Json.num (150011/1000)) := by
  refine ⟨?_, ?_, ?_, ?_⟩
  · intro c e
    simp [totalsMatch]
  · with_unfolding_all rfl
  · with_unfolding_all rfl
  · with_unfolding_all rfl


/-- C3 counterexample: a run whose holistic-review response parses to an
object without `overall_confidence` (here the empty object) ends the
validation stage with NO `overall` key at all, although a stage confidence
was recorded — the claimed mean fallback does not run on this path. -/
theorem C3_counterexample :
    dictGet (validate_and_enhance_data (some "\x7b\x7d")
      { confidence_scores := [("header_extraction", Json.num (85/100))] }).confidence_scores
      "overall" = none := by
  with_unfolding_all rfl

/-- C3 (amended): `confidence_scores["overall"]` equals the response's
`overall_confidence` when the parsed response is an object carrying that key
(and the `enhanced_data` merge does not raise); it equals the mean of the
recorded stage confidences only when the merge raises (e.g. a numeric parse
result); and when the response parses to an object without either key the
`overall` key is not written at all. -/
theorem C3_overall_confidence_rules :
    (∀ (s : InvoiceState) (content : String) (kvs : List (String × Json)) (oc : Json),
        extract_json_from_response content = .obj kvs →
        dictGet kvs "overall_confidence" = some oc →
        (dictGet kvs "enhanced_data" = none ∨
          ∃ ed, dictGet kvs "enhanced_data" = some (.obj ed)) →
        dictGet (validate_and_enhance_data (some content) s).confidence_scores "overall"
          = some oc)
    ∧ (∀ (s : InvoiceState) (content : String) (q : ℚ),
        extract_json_from_response content = .num q →
        dictGet (validate_and_enhance_data (some content) s).confidence_scores "overall"
          = some (.num (mean_confidence s.confidence_scores)))
    ∧ (∀ (s : InvoiceState) (content : String) (kvs : List (String × Json)),
        extract_json_from_response content = .obj kvs →
        dictGet kvs "overall_confidence" = none →
        dictGet kvs "enhanced_data" = none →
        (validate_and_enhance_data (some content) s).confidence_scores
          = s.confidence_scores) := by
  refine ⟨?_, ?_, ?_⟩
  · intro s content kvs oc hvr hoc henh
    rw [validate_some_eq]
    rcases henh with h | ⟨ed, h⟩ <;>
      simp [applyValidationResult, hvr, h, hoc, dictGet_dictSet_self]
  · intro s content q hvr
    rw [validate_some_eq]
    simp [applyValidationResult, hvr, dictGet_dictSet_self]
  · intro s content kvs hvr hoc henh
    rw [validate_some_eq]
    simp [applyValidationResult, hvr, hoc, henh]

/-- C3 witness: with the empty-object response and one recorded stage score,
the confidence mapping is returned unchanged. -/
theorem C3_witness :
    (validate_and_enhance_data (some "\x7b\x7d")
      { confidence_scores := [("financial_extraction", Json.num (9/10))] }).confidence_scores
      = ({ confidence_scores := [("financial_extraction", Json.num (9/10))] }
          : InvoiceState).confidence_scores :=
  C3_overall_confidence_rules.2.2
    { confidence_scores := [("financial_extraction", Json.num (9/10))] } "\x7b\x7d" []
    (by with_unfolding_all rfl) (by with_unfolding_all rfl) (by with_unfolding_all rfl)

/-- C4 counterexample: the response `"no json here"` cannot be parsed into
header data, yet the stage records confidence `0.85` (not `0.5`), writes no
null header fields, and does not fail — because the response parser returns
an empty dict which the stage treats as success. -/
theorem C4_counterexample :
    (extract_header_info (some "no json here") { }).confidence_scores
        = [("header_extraction", Json.num (85/100))]
      ∧ (extract_header_info (some "no json here") { }).extracted_data = []
      ∧ (extract_header_info (some "no json here") { }).status = "processing" := by
  refine ⟨?_, ?_, ?_⟩ <;> with_unfolding_all rfl

/-- C4 (amended): the header stage never fails on any response content; when
the parsed response is an object (including the empty object produced for
unparsable text) it records `0.85` and merges the normalized fields; the
`0.5`-with-seven-nulls fallback fires exactly when the parsed value is not
an object (so that key normalization raises). -/
theorem C4_header_parse_behavior :
    (∀ (s : InvoiceState) (content : String),
        (extract_header_info (some content) s).status = s.status)
    ∧ (∀ (s : InvoiceState) (content : String) (kvs : List (String × Json)),
        extract_json_from_response content = .obj kvs →
        (extract_header_info (some content) s).confidence_scores
            = dictSet s.confidence_scores "header_extraction" (.num (85/100))
          ∧ (extract_header_info (some content) s).extracted_data
            = dictUpdate s.extracted_data (normalize_json_keys kvs))
    ∧ (∀ (s : InvoiceState) (content : String),
        (extract_json_from_response content).isObj = false →
        (extract_header_info (some content) s).confidence_scores
            = dictSet s.confidence_scores "header_extraction" (.num (1/2))
          ∧ (extract_header_info (some content) s).extracted_data
            = dictUpdate s.extracted_data headerFallbackFields) := by
  refine ⟨?_, ?_, ?_⟩
  · intro s content
    cases h : extract_json_from_response content <;> simp [extract_header_info, h]
  · intro s content kvs hvr
    exact ⟨by simp [extract_header_info, hvr], by simp [extract_header_info, hvr]⟩
  · intro s content hobj
    cases h : extract_json_from_response content
    case obj kvs =>
      rw [h] at hobj
      simp [Json.isObj] at hobj
    all_goals
      exact ⟨by simp [extract_header_info, h], by simp [extract_header_info, h]⟩

/-- C4 witness: a JSON-array response (not a dict) takes the fallback
branch: confidence `0.5` and the seven null header fields. -/
theorem C4_witness :
    (extract_header_info (some "[1, 2]") { }).confidence_scores
        = dictSet ({ } : InvoiceState).confidence_scores "header_extraction" (Json.num (1/2))
      ∧ (extract_header_info (some "[1, 2]") { }).extracted_data
        = dictUpdate ({ } : InvoiceState).extracted_data headerFallbackFields :=
  C4_header_parse_behavior.2.2 { } "[1, 2]" (by with_unfolding_all rfl)


/-- C5 counterexample: the financial stage does not strip `£`: a declared
total of `"£50.00"` is coerced to `0.0`, although stripping the claimed
symbol set would parse it as `50.0` (as the validation-stage coercion
does). -/
theorem C5_counterexample :
    dictGet (extract_financial_info (some "\x7b\"Total Amount\": \"£50.00\"\x7d")
        { }).extracted_data "total_amount" = some (Json.num 0)
      ∧ pyFloat (removeChars valStripChars "£50.00") = some 50 := by
  constructor <;> with_unfolding_all rfl

/-- C5 (amended): the financial-stage coercion strips only `$` and `,`
before `float()` (yielding `0.0` on failure), while the validation-stage
coercion of `total_price`-like values strips `$ , £ €`; both agree on
`"$1,234.56"` but differ on pound/euro-formatted strings. -/
theorem C5_numeric_coercion :
    finStripChars = ['$', ',']
    ∧ valStripChars = ['$', ',', '£', '€']
    ∧ (∀ (s : String) (q : ℚ), pyFloat (removeChars finStripChars s) = some q →
        coerceFinancialValue (.str s) = .num q)
    ∧ (∀ s : String, pyFloat (removeChars finStripChars s) = none →
        coerceFinancialValue (.str s) = .num 0)
    ∧ (∀ (s : String) (q : ℚ), pyFloat (removeChars valStripChars s) = some q →
        coerceMoney (.str s) = q)
    ∧ (∀ s : String, pyFloat (removeChars valStripChars s) = none →
        coerceMoney (.str s) = 0)
    ∧ coerceFinancialValue (.str "$1,234.56") = .num (123456/100)
    ∧ coerceMoney (.str "$1,234.56") = 123456/100
    ∧ coerceFinancialValue (.str "£50.00") = .num 0
    ∧ coerceMoney (.str "£50.00") = 50 := by
  refine ⟨rfl, rfl, ?_, ?_, ?_, ?_, ?_, ?_, ?_, ?_⟩
  · intro s q h; simp [coerceFinancialValue, h]
  · intro s h; simp [coerceFinancialValue, h]
  · intro s q h; simp [coerceMoney, h]
  · intro s h; simp [coerceMoney, h]
  all_goals with_unfolding_all rfl

/-- C5 witness: the financial coercion applied to `"$1,234.56"`. -/
theorem C5_witness :
    coerceFinancialValue (.str "$1,234.56") = Json.num (123456/100) :=
  C5_numeric_coercion.2.2.1 "$1,234.56" (123456/100) (by with_unfolding_all rfl)

/-- C6: the workflow runner returns the state unchanged as soon as a node
leaves `status = "failed"`, independent of the remaining nodes; a node that
does not fail hands its output to the rest of the list. -/
theorem C6_short_circuit :
    ∀ (f : InvoiceState → InvoiceState) (rest : List (InvoiceState → InvoiceState))
      (s : InvoiceState),
      ((f s).status = "failed" →
        InvoiceExtractionWorkflow.run (f :: rest) s = f s)
      ∧ ((f s).status ≠ "failed" →
        InvoiceExtractionWorkflow.run (f :: rest) s
          = InvoiceExtractionWorkflow.run rest (f s)) := by
  intro f rest s
  constructor
  · intro h
    simp [InvoiceExtractionWorkflow.run, h]
  · intro h
    simp [InvoiceExtractionWorkflow.run, h]

/-- C6 witness: a hard model-invocation failure at the header stage (stage 2)
short-circuits the financial, line-items and validation stages. -/
theorem C6_witness :
    InvoiceExtractionWorkflow.run
        [extract_header_info none, extract_financial_info none, extract_line_items none,
         validate_and_enhance_data none]
        { filename := "invoice.pdf", raw_text := "some text" }
      = extract_header_info none { filename := "invoice.pdf", raw_text := "some text" } :=
  (C6_short_circuit (extract_header_info none)
      [extract_financial_info none, extract_line_items none, validate_and_enhance_data none]
      { filename := "invoice.pdf", raw_text := "some text" }).1
    (by with_unfolding_all rfl)

/-- C7: the response parser is total and tries, in order, a direct parse,
the fenced-code-block group, and the brace span, returning the first
success and the empty object when all three fail. -/
theorem C7_parser_fallback_order :
    ∀ text : String,
      (∀ j, parseJson text = some j → extract_json_from_response text = j)
      ∧ (∀ sub j, parseJson text = none → find_code_block_json text = some sub →
          parseJson sub = some j → extract_json_from_response text = j)
      ∧ (∀ sub j, parseJson text = none →
          (find_code_block_json text).bind parseJson = none →
          find_brace_span text = some sub → parseJson sub = some j →
          extract_json_from_response text = j)
      ∧ (parseJson text = none →
          (find_code_block_json text).bind parseJson = none →
          (find_brace_span text).bind parseJson = none →
          extract_json_from_response text = Json.obj []) := by
  intro text
  refine ⟨?_, ?_, ?_, ?_⟩
  · intro j h
    simp [extract_json_from_response, h]
  · intro sub j h hb hp
    simp [extract_json_from_response, h, hb, hp]
  · intro sub j h hb hsp hp
    cases hcb : find_code_block_json text with
    | none => simp [extract_json_from_response, h, hcb, hsp, hp]
    | some b =>
        rw [hcb] at hb
        simp at hb
        simp [extract_json_from_response, h, hcb, hb, hsp, hp]
  · intro h hb hsp
    cases hcb : find_code_block_json text with
    | none =>
        cases hbs : find_brace_span text with
        | none => simp [extract_json_from_response, h, hcb, hbs]
        | some b2 =>
            rw [hbs] at hsp
            simp at hsp
            simp [extract_json_from_response, h, hcb, hbs, hsp]
    | some b =>
        rw [hcb] at hb
        simp at hb
        cases hbs : find_brace_span text with
        | none => simp [extract_json_from_response, h, hcb, hb, hbs]
        | some b2 =>
            rw [hbs] at hsp
            simp at hsp
            simp [extract_json_from_response, h, hcb, hb, hbs, hsp]

/-- C7 witness: on text with no parsable JSON anywhere, the parser returns
the empty object. -/
theorem C7_witness :
    extract_json_from_response "no json here at all" = Json.obj [] :=
  (C7_parser_fallback_order "no json here at all").2.2.2
    (by with_unfolding_all rfl) (by with_unfolding_all rfl) (by with_unfolding_all rfl)


/-- C8 counterexample: a line item carrying `total_price: 0.0` and
`amount: 50.0` resolves to `50.0` — the `or`-chain skips the earliest alias
because its value is falsy, so the earliest-present-alias rule of the claim
does not hold. -/
theorem C8_counterexample :
    resolveTotalPriceField [("total_price", Json.num 0), ("amount", Json.num 50)]
        = Json.num 50
      ∧ resolveTotalPriceField [("total_price", Json.num 0), ("amount", Json.num 50)]
        ≠ Json.num 0
      ∧ calculated_total
          [("line_items",
            Json.arr [Json.obj [("total_price", Json.num 0), ("amount", Json.num 50)]])]
        = 50 := by
  refine ⟨?_, ?_, ?_⟩
  · with_unfolding_all rfl
  · with_unfolding_all decide
  · with_unfolding_all rfl

/-- C8 (amended): the alias chain `total_price`, `Total Price`, `amount`,
`Amount` is checked in that fixed order but takes the first alias with a
*truthy* value (present-but-falsy aliases are skipped); items whose aliases
are all missing or falsy, and items whose resolved string does not parse,
contribute `0.0`. -/
theorem C8_alias_resolution :
    (∀ (item : List (String × Json)) (v : Json),
        dictGet item "total_price" = some v → truthy v = true →
        resolveTotalPriceField item = v)
    ∧ (∀ (item : List (String × Json)) (v2 : Json),
        truthy (getOrNone item "total_price") = false →
        dictGet item "Total Price" = some v2 → truthy v2 = true →
        resolveTotalPriceField item = v2)
    ∧ (∀ item : List (String × Json),
        truthy (getOrNone item "total_price") = false →
        truthy (getOrNone item "Total Price") = false →
        truthy (getOrNone item "amount") = false →
        truthy (getOrNone item "Amount") = false →
        itemContribution (.obj item) = 0)
    ∧ (∀ (item : List (String × Json)) (s : String),
        dictGet item "total_price" = some (.str s) → s ≠ "" →
        pyFloat (removeChars valStripChars s) = none →
        itemContribution (.obj item) = 0) := by
  refine ⟨?_, ?_, ?_, ?_⟩
  · intro item v hv ht
    simp [resolveTotalPriceField, pyOr, getOrNone, hv, ht]
  · intro item v2 h1 hv2 ht2
    have h1x : truthy ((dictGet item "total_price").getD Json.null) = false := by
      simpa [getOrNone] using h1
    simp [resolveTotalPriceField, pyOr, getOrNone, h1x, hv2, ht2]
  · intro item h1 h2 h3 h4
    simp [itemContribution, resolveTotalPriceField, pyOr, h1, h2, h3, h4, coerceMoney]
  · intro item s hv hs hf
    simp [itemContribution, resolveTotalPriceField, pyOr, getOrNone, hv, truthy, hs,
      coerceMoney, hf]

/-- C8 witness: a truthy `total_price` wins over a later alias. -/
theorem C8_witness :
    resolveTotalPriceField [("total_price", Json.str "$5.00"), ("amount", Json.num 3)]
      = Json.str "$5.00" :=
  C8_alias_resolution.1 [("total_price", Json.str "$5.00"), ("amount", Json.num 3)]
    (Json.str "$5.00") (by with_unfolding_all rfl) (by with_unfolding_all rfl)

/-- C9 counterexample: the `enhanced_data` merge copies model values
verbatim, so a currency-formatted string lands in `fields["total_amount"]`
after the validation stage — the numeric invariant does not survive the
merge. -/
theorem C9_counterexample :
    dictGet (validate_and_enhance_data
        (some "\x7b\"enhanced_data\": \x7b\"Total Amount\": \"$1,500.00\"\x7d\x7d")
        { }).extracted_data "total_amount"
      = some (Json.str "$1,500.00") := by
  with_unfolding_all rfl

/-- C9 (amended): the financial stage coerces truthy
`subtotal`/`total_amount` values to numbers and the auto-correction writes
numbers, but the `enhanced_data` merge is verbatim (no coercion), so it can
overwrite these keys with strings. -/
theorem C9_numeric_invariant :
    (∀ v : Json, ∃ q, coerceFinancialValue v = Json.num q)
    ∧ (∀ (d : List (String × Json)) (v : Json),
        dictGet d "total_amount" = some v → truthy v = true →
        dictGet (coerceFinancial d) "total_amount" = some (coerceFinancialValue v))
    ∧ (∀ (d : List (String × Json)) (v : Json),
        dictGet d "subtotal" = some v → truthy v = true →
        dictGet (coerceFinancial d) "subtotal" = some (coerceFinancialValue v))
    ∧ (∀ (data : List (String × Json)) (c : ℚ), 0 < c →
        dictGet (applyAutoCorrect data c false) "total_amount" = some (Json.num c))
    ∧ (∀ (data scores kvs ed : List (String × Json)),
        dictGet kvs "enhanced_data" = some (.obj ed) →
        (applyValidationResult (.obj kvs) data scores).1
          = dictUpdate data (normalize_json_keys ed)) := by
  refine ⟨coerceFinancialValue_isNum, ?_, ?_, ?_, ?_⟩
  · intro d v hv ht
    show dictGet
        (coerceKeyStep (coerceKeyStep (coerceKeyStep d "subtotal") "tax_amount")
          "total_amount") "total_amount" = _
    rw [coerceKeyStep_self _ _ v _ ht]
    rw [coerceKeyStep_ne _ _ _ (by decide), coerceKeyStep_ne _ _ _ (by decide)]
    exact hv
  · intro d v hv ht
    show dictGet
        (coerceKeyStep (coerceKeyStep (coerceKeyStep d "subtotal") "tax_amount")
          "total_amount") "subtotal" = _
    rw [coerceKeyStep_ne _ _ _ (by decide), coerceKeyStep_ne _ _ _ (by decide)]
    exact coerceKeyStep_self d "subtotal" v hv ht
  · intro data c hpos
    exact autoCorrect_total data c hpos
  · intro data scores kvs ed henh
    cases hoc : dictGet kvs "overall_confidence" <;>
      simp [applyValidationResult, henh, hoc]

/-- C9 witness: the financial coercion turns a truthy string amount into a
number at its key. -/
theorem C9_witness :
    dictGet (coerceFinancial [("total_amount", Json.str "$20")]) "total_amount"
      = some (coerceFinancialValue (Json.str "$20")) :=
  C9_numeric_invariant.2.1 [("total_amount", Json.str "$20")] (Json.str "$20")
    (by with_unfolding_all rfl) (by with_unfolding_all rfl)

/-- Observer for one field of the validation report stored in
`fields["validation"]`. -/
def reportField (st : InvoiceState) (k : String) : Option Json :=
  match dictGet st.extracted_data "validation" with
  | some (.obj r) => dictGet r k
  | _ => none


/-- C10 counterexample: with line items summing to `150`, declared total
`140`, and an `enhanced_data` response restoring `total_amount: 140.0`, the
stage auto-corrects (report `auto_corrected = true`, `extracted_total =
140`) yet the final `fields["total_amount"]` is again `140` — equal to, not
different from, the report's `extracted_total`. -/
theorem C10_counterexample :
    dictGet (validate_and_enhance_data
        (some "\x7b\"enhanced_data\": \x7b\"total_amount\": 140.0\x7d\x7d")
        { extracted_data :=
            [("total_amount", Json.num 140),
             ("line_items", Json.arr [Json.obj [("total_price", Json.str "$100.00")],
                                      Json.obj [("total_price", Json.str "$50.00")]])] }).extracted_data
        "total_amount" = some (Json.num 140)
      ∧ reportField (validate_and_enhance_data
          (some "\x7b\"enhanced_data\": \x7b\"total_amount\": 140.0\x7d\x7d")
          { extracted_data :=
              [("total_amount", Json.num 140),
               ("line_items", Json.arr [Json.obj [("total_price", Json.str "$100.00")],
                                        Json.obj [("total_price", Json.str "$50.00")]])] })
          "extracted_total" = some (Json.num 140)
      ∧ reportField (validate_and_enhance_data
          (some "\x7b\"enhanced_data\": \x7b\"total_amount\": 140.0\x7d\x7d")
          { extracted_data :=
              [("total_amount", Json.num 140),
               ("line_items", Json.arr [Json.obj [("total_price", Json.str "$100.00")],
                                        Json.obj [("total_price", Json.str "$50.00")]])] })
          "auto_corrected" = some (Json.bool true) := by
  refine ⟨?_, ?_, ?_⟩ <;> with_unfolding_all rfl

/-- C10 (amended): the validation report always records the pre-correction
`extracted_total`, the `calculated_total`, their absolute difference, and
`auto_corrected` exactly when the totals mismatch with positive calculated
total; when auto-correction fires, the pre-correction `extracted_total`
differs from the calculated total that the correction writes into
`fields["total_amount"]` — though the later `enhanced_data` merge may
overwrite that field again. -/
theorem C10_validation_report :
    (∀ (s : InvoiceState) (content : String),
        reportField (validate_and_enhance_data (some content) s) "extracted_total"
            = some (.num (extracted_total s.extracted_data))
          ∧ reportField (validate_and_enhance_data (some content) s) "calculated_total"
            = some (.num (calculated_total s.extracted_data))
          ∧ reportField (validate_and_enhance_data (some content) s) "difference"
            = some (.num |calculated_total s.extracted_data - extracted_total s.extracted_data|)
          ∧ reportField (validate_and_enhance_data (some content) s) "auto_corrected"
            = some (.bool (!totalsMatch (calculated_total s.extracted_data)
                  (extracted_total s.extracted_data)
                && calculated_total s.extracted_data > 0)))
    ∧ (∀ s : InvoiceState,
        totalsMatch (calculated_total s.extracted_data) (extracted_total s.extracted_data)
            = false →
        0 < calculated_total s.extracted_data →
        extracted_total s.extracted_data ≠ calculated_total s.extracted_data)
    ∧ (∀ (data : List (String × Json)) (c : ℚ), 0 < c →
        dictGet (applyAutoCorrect data c false) "total_amount" = some (.num c)) := by
  refine ⟨?_, ?_, ?_⟩
  · intro s content
    have hrep : dictGet (validate_and_enhance_data (some content) s).extracted_data
        "validation"
        = some (validationReport
            (totalsMatch (calculated_total s.extracted_data)
              (extracted_total s.extracted_data))
            (extracted_total s.extracted_data) (calculated_total s.extracted_data)) := by
      rw [validate_some_eq]
      exact dictGet_dictSet_self _ _ _
    refine ⟨?_, ?_, ?_, ?_⟩ <;> simp [reportField, hrep, validationReport, dictGet]
  · intro s htm hpos heq
    simp only [totalsMatch, decide_eq_false_iff_not] at htm
    apply htm
    rw [heq]
    simp
  · intro data c hpos
    exact autoCorrect_total data c hpos

/-- C10 witness: on the mismatching `140` vs `150` state with a benign
response, the report stores the pre-correction total, which differs from the
calculated total written by the correction. -/
theorem C10_witness :
    reportField (validate_and_enhance_data (some "\x7b\x7d")
        { extracted_data :=
            [("total_amount", Json.num 140),
             ("line_items", Json.arr [Json.obj [("total_price", Json.str "$100.00")],
                                      Json.obj [("total_price", Json.str "$50.00")]])] })
        "extracted_total"
      = some (.num (extracted_total
          [("total_amount", Json.num 140),
           ("line_items", Json.arr [Json.obj [("total_price", Json.str "$100.00")],
                                    Json.obj [("total_price", Json.str "$50.00")]])]))
    ∧ extracted_total
          [("total_amount", Json.num 140),
           ("line_items", Json.arr [Json.obj [("total_price", Json.str "$100.00")],
                                    Json.obj [("total_price", Json.str "$50.00")]])]
        ≠ calculated_total
          [("total_amount", Json.num 140),
           ("line_items", Json.arr [Json.obj [("total_price", Json.str "$100.00")],
                                    Json.obj [("total_price", Json.str "$50.00")]])] :=
  ⟨(C10_validation_report.1
      { extracted_data :=
          [("total_amount", Json.num 140),
           ("line_items", Json.arr [Json.obj [("total_price", Json.str "$100.00")],
                                    Json.obj [("total_price", Json.str "$50.00")]])] }
      "\x7b\x7d").1,
   C10_validation_report.2.1
      { extracted_data :=
          [("total_amount", Json.num 140),
           ("line_items", Json.arr [Json.obj [("total_price", Json.str "$100.00")],
                                    Json.obj [("total_price", Json.str "$50.00")]])] }
      (by with_unfolding_all rfl) (by with_unfolding_all decide)⟩

